import Mathlib

/-!
Verification of the configuration loader of `nestjs-zod-config`
(`src/config/config.schema.ts`, `src/config/config.factory.ts`,
`src/config/config.service.ts`).

The loader reads seven process-environment variables, validates them with a
zod schema and either returns a typed `Config` or throws a `ConfigException`
carrying an aggregate of all validation issues.

Modelling choices:
* JavaScript numbers are modelled as exact rationals (`ℚ`); floating-point
  rounding is not modelled.  `NaN` is modelled as `none` of `Option ℚ`.
* `Number(string)` (used by `z.coerce.number()`) is modelled on the decimal
  subset actually exercised here: optional sign, integer and fraction digits.
  Hexadecimal, exponent and `Infinity` forms are outside the model.
* A zod issue is modelled by its `path` and `message`; `safeParse` on an
  object collects the issues of every key in declaration order.  The real
  exception message is a fixed prefix followed by a rendering of exactly this
  issue list, so the aggregate message is modelled structurally by the list.
-/

namespace NestZodConfig

/-- Decimal digit value of a character, `none` when it is not a digit. -/
def decDigit? (c : Char) : Option ℕ :=
  if c.isDigit then some (c.toNat - 48) else none

/-- Value of a non-empty run of decimal digits; `none` on the empty list or a
non-digit. -/
def parseDigits : List Char → Option ℕ
  | [] => none
  | cs => cs.foldlM (fun acc c => (decDigit? c).map (fun d => acc * 10 + d)) 0

/-- Value of an unsigned decimal literal `digits[.digits]`, as JavaScript
`Number` reads it: `"1."` and `".5"` are numbers, `"."` and `"1.2.3"` are
not. -/
def parseUnsignedDec (cs : List Char) : Option ℚ :=
  match cs.splitOn '.' with
  | [ip] => (parseDigits ip).map (fun n => (n : ℚ))
  | [[], []] => none
  | [[], fp] => (parseDigits fp).map (fun n => (n : ℚ) / (10 : ℚ) ^ fp.length)
  | [ip, []] => (parseDigits ip).map (fun n => (n : ℚ))
  | [ip, fp] =>
    match parseDigits ip, parseDigits fp with
    | some a, some b => some ((a : ℚ) + (b : ℚ) / (10 : ℚ) ^ fp.length)
    | _, _ => none
  | _ => none

/-- ASCII whitespace characters that JavaScript strips around a numeric
string (the Unicode space characters are outside the model). -/
def isJsSpace (c : Char) : Bool :=
  c = ' ' || c = '\t' || c = '\n' || c = '\r' || c = '\x0b' || c = '\x0c'

/-- Leading and trailing whitespace stripped from a character list. -/
def trimChars (cs : List Char) : List Char :=
  ((cs.dropWhile isJsSpace).reverse.dropWhile isJsSpace).reverse

/-- JavaScript `Number(s)` on a string, restricted to the decimal subset of
the literal grammar (see the module docstring).  The empty or all-blank
string is `0`; `none` stands for `NaN`. -/
def jsStringToNumber (s : String) : Option ℚ :=
  match trimChars s.toList with
  | [] => some 0
  | '+' :: rest => parseUnsignedDec rest
  | '-' :: rest => (parseUnsignedDec rest).map (fun q => -q)
  | cs => parseUnsignedDec cs

/-- JavaScript `Number(v)` where `v` is an environment value: `undefined`
coerces to `NaN`. -/
def jsNumber : Option String → Option ℚ
  | none => none
  | some s => jsStringToNumber s

/-- One zod validation issue: the path of the offending field and a
human-readable message. -/
structure ZodIssue where
  path : List String
  message : String
deriving DecidableEq, Repr

/-- Issues carried by a parse result: none on success. -/
def issuesOf {α : Type} : Except (List ZodIssue) α → List ZodIssue
  | .ok _ => []
  | .error l => l

/-- Sequencing of two object keys as zod `safeParse` does it: succeed only
when both do, otherwise collect the issues of both in order. -/
def zseq {α β : Type} (a : Except (List ZodIssue) α) (b : Except (List ZodIssue) β) :
    Except (List ZodIssue) (α × β) :=
  match a, b with
  | .ok x, .ok y => .ok (x, y)
  | x, y => .error (issuesOf x ++ issuesOf y)

/-- The two values of `z.enum(['development', 'production'])`. -/
inductive Environment
  | development
  | production
deriving DecidableEq, Repr

/-- String form of an `Environment` value. -/
def envToString : Environment → String
  | .development => "development"
  | .production => "production"

/-- Parse of `environmentSchema = z.enum(['development', 'production'])` at a
given path: a missing value is a required-field issue, a string outside the
enumeration an invalid-enum issue. -/
def environmentParse (path : List String) : Option String → Except (List ZodIssue) Environment
  | none => .error [⟨path, "Required"⟩]
  | some s =>
    if s = "development" then .ok .development
    else if s = "production" then .ok .production
    else .error [⟨path, "Invalid enum value. Expected development | production"⟩]

/-- Parse of `z.string().min(1)` at a given path: a missing value is a
required-field issue, a present string passes exactly when its length is at
least 1. -/
def stringMin1Parse (path : List String) : Option String → Except (List ZodIssue) String
  | none => .error [⟨path, "Required"⟩]
  | some s =>
    if 1 ≤ s.length then .ok s
    else .error [⟨path, "String must contain at least 1 character"⟩]

/-- Parse of `z.coerce.number().positive().int()` (the top-level `port`) at a
given path: the raw value is coerced with `Number`, `NaN` is an invalid-type
issue, and both checks run, each failed check adding its own issue. -/
def coercedPositiveIntParse (path : List String) (v : Option String) :
    Except (List ZodIssue) ℚ :=
  match jsNumber v with
  | none => .error [⟨path, "Expected number, received nan"⟩]
  | some q =>
    let issues : List ZodIssue :=
      (if 0 < q then [] else [⟨path, "Number must be greater than 0"⟩]) ++
      (if q.den = 1 then [] else [⟨path, "Expected integer, received float"⟩])
    if issues = [] then .ok q else .error issues

/-- Parse of `z.coerce.number().min(1)` (the database `port`) at a given
path: the raw value is coerced with `Number`, `NaN` is an invalid-type issue,
and the coerced number must be at least 1. -/
def coercedMin1Parse (path : List String) (v : Option String) :
    Except (List ZodIssue) ℚ :=
  match jsNumber v with
  | none => .error [⟨path, "Expected number, received nan"⟩]
  | some q =>
    if 1 ≤ q then .ok q
    else .error [⟨path, "Number must be greater than or equal to 1"⟩]

/-- Validated database sub-object, fields in the declaration order of
`databaseSchema`. -/
structure DatabaseConfig where
  host : String
  database : String
  password : String
  port : ℚ
  username : String
deriving DecidableEq, Repr

/-- Validated configuration, the `Config` type inferred from
`configSchema`. -/
structure Config where
  env : Environment
  port : ℚ
  database : DatabaseConfig
deriving DecidableEq, Repr

/-- Raw database sub-object as `configFactory` assembles it: five
environment values, each possibly absent. -/
structure RawDatabase where
  host : Option String
  port : Option String
  username : Option String
  password : Option String
  database : Option String

/-- Raw input object passed to `configSchema.safeParse`. -/
structure RawConfigInput where
  env : Option String
  port : Option String
  database : RawDatabase

/-- Parse of `databaseSchema`: the five keys in declaration order (host,
database, password, port, username), issues collected across all of them. -/
def databaseSchemaParse (d : RawDatabase) : Except (List ZodIssue) DatabaseConfig :=
  (zseq (zseq (zseq (zseq
      (stringMin1Parse ["database", "host"] d.host)
      (stringMin1Parse ["database", "database"] d.database))
      (stringMin1Parse ["database", "password"] d.password))
      (coercedMin1Parse ["database", "port"] d.port))
      (stringMin1Parse ["database", "username"] d.username)).map
    (fun x => ⟨x.1.1.1.1, x.1.1.1.2, x.1.1.2, x.1.2, x.2⟩)

/-- Parse of `configSchema`: keys `env`, `port`, `database` in declaration
order, issues collected across all of them. -/
def configSchemaParse (r : RawConfigInput) : Except (List ZodIssue) Config :=
  (zseq (zseq
      (environmentParse ["env"] r.env)
      (coercedPositiveIntParse ["port"] r.port))
      (databaseSchemaParse r.database)).map
    (fun x => ⟨x.1.1, x.1.2, x.2⟩)

/-- The process environment: a mapping from variable names to values. -/
def ProcessEnv : Type := String → Option String

/-- The raw input object `configFactory` builds from the process
environment. -/
def readRawInput (e : ProcessEnv) : RawConfigInput :=
  { env := e "NODE_ENV"
    port := e "PORT"
    database :=
      { host := e "DATABASE_HOST"
        port := e "DATABASE_PORT"
        username := e "DATABASE_USERNAME"
        password := e "DATABASE_PASSWORD"
        database := e "DATABASE_NAME" } }

/-- The `ConfigException` thrown on failure.  Its message in the source is
the string `Configuration file error: ` followed by a rendering of the zod
issue list; the aggregate is modelled structurally by that list. -/
structure ConfigException where
  issues : List ZodIssue
deriving DecidableEq, Repr

/-- Rendering of the aggregate message carried by a `ConfigException`. -/
def ConfigException.message (exc : ConfigException) : String :=
  "Configuration file error: " ++ String.intercalate "; "
    (exc.issues.map (fun i => String.intercalate "." i.path ++ ": " ++ i.message))

/-- The loader `configFactory`: build the raw input from the process
environment, run `configSchema.safeParse`, throw `ConfigException` on
failure, return the parsed data on success. -/
def configFactory (e : ProcessEnv) : Except ConfigException Config :=
  match configSchemaParse (readRawInput e) with
  | .ok c => .ok c
  | .error l => .error ⟨l⟩

/-- The seven configuration fields, one per environment variable read by
`configFactory`. -/
inductive Field
  | env
  | port
  | dbHost
  | dbDatabase
  | dbPassword
  | dbPort
  | dbUsername
deriving DecidableEq, Repr

/-- The environment variable a field is read from. -/
def Field.envVar : Field → String
  | .env => "NODE_ENV"
  | .port => "PORT"
  | .dbHost => "DATABASE_HOST"
  | .dbDatabase => "DATABASE_NAME"
  | .dbPassword => "DATABASE_PASSWORD"
  | .dbPort => "DATABASE_PORT"
  | .dbUsername => "DATABASE_USERNAME"

/-- The zod path of a field inside `configSchema`. -/
def Field.path : Field → List String
  | .env => ["env"]
  | .port => ["port"]
  | .dbHost => ["database", "host"]
  | .dbDatabase => ["database", "database"]
  | .dbPassword => ["database", "password"]
  | .dbPort => ["database", "port"]
  | .dbUsername => ["database", "username"]

/-- Whether a field is validated by `z.string().min(1)`. -/
def Field.isString : Field → Bool
  | .dbHost => true
  | .dbDatabase => true
  | .dbPassword => true
  | .dbUsername => true
  | _ => false

/-- The validation issues a single field of the raw input contributes. -/
def fieldIssues (e : ProcessEnv) : Field → List ZodIssue
  | .env => issuesOf (environmentParse ["env"] (e "NODE_ENV"))
  | .port => issuesOf (coercedPositiveIntParse ["port"] (e "PORT"))
  | .dbHost => issuesOf (stringMin1Parse ["database", "host"] (e "DATABASE_HOST"))
  | .dbDatabase => issuesOf (stringMin1Parse ["database", "database"] (e "DATABASE_NAME"))
  | .dbPassword => issuesOf (stringMin1Parse ["database", "password"] (e "DATABASE_PASSWORD"))
  | .dbPort => issuesOf (coercedMin1Parse ["database", "port"] (e "DATABASE_PORT"))
  | .dbUsername => issuesOf (stringMin1Parse ["database", "username"] (e "DATABASE_USERNAME"))

/-- All issues of a run of the loader, fields in the order zod visits
them. -/
def allIssues (e : ProcessEnv) : List ZodIssue :=
  fieldIssues e .env ++ fieldIssues e .port ++ fieldIssues e .dbHost ++
  fieldIssues e .dbDatabase ++ fieldIssues e .dbPassword ++ fieldIssues e .dbPort ++
  fieldIssues e .dbUsername

/-- The schema constraints on a validated configuration.  The `env` field is
in the enumeration by the type `Environment` itself. -/
def validConfig (c : Config) : Prop :=
  0 < c.port ∧ c.port.den = 1 ∧
  c.database.host ≠ "" ∧ c.database.database ≠ "" ∧ c.database.password ≠ "" ∧
  1 ≤ c.database.port ∧ c.database.username ≠ ""

/-- The three keys of the `Config` type, as accepted by
`ConfigService.get`. -/
inductive ConfigKey
  | env
  | port
  | database
deriving DecidableEq, Repr

/-- Declared type of each configuration key (`Config[K]` in the source). -/
def ConfigKey.valueType : ConfigKey → Type
  | .env => Environment
  | .port => ℚ
  | .database => DatabaseConfig

/-- The value a validated configuration stores for a key. -/
def Config.getField (c : Config) : (k : ConfigKey) → k.valueType
  | .env => c.env
  | .port => c.port
  | .database => c.database

/-- The framework configuration service after startup: it holds the record
produced by the registered `load` factory, here the `Config` returned by
`configFactory`.  Its `get` looks the key up in that record and performs no
further validation or coercion. -/
structure NestConfigService where
  internalConfig : Config

/-- Lookup of the framework configuration service. -/
def NestConfigService.get (n : NestConfigService) (k : ConfigKey) : k.valueType :=
  n.internalConfig.getField k

/-- The `ConfigService` of `config.service.ts`: it wraps the framework
service and its `get` forwards to the wrapped `get` with the inferred
type. -/
structure ConfigService where
  configService : NestConfigService

/-- The accessor `ConfigService.get`. -/
def ConfigService.get (s : ConfigService) (k : ConfigKey) : k.valueType :=
  s.configService.get k

/-- The framework service produced at startup by running the registered
`load` factory: it stores the configuration `configFactory` returned, and
startup fails when the factory throws. -/
def nestServiceOfLoad (e : ProcessEnv) : Except ConfigException NestConfigService :=
  (configFactory e).map (fun c => ⟨c⟩)

/-- The process environment of the worked example in the specification and
in the `.env` file of the article. -/
def exampleEnv : ProcessEnv := fun k =>
  if k = "NODE_ENV" then some "development"
  else if k = "PORT" then some "3000"
  else if k = "DATABASE_HOST" then some "localhost"
  else if k = "DATABASE_PORT" then some "5432"
  else if k = "DATABASE_USERNAME" then some "postgres"
  else if k = "DATABASE_PASSWORD" then some "postgres"
  else if k = "DATABASE_NAME" then some "postgres"
  else none

/-- The configuration the example environment loads to. -/
def exampleConfig : Config :=
  ⟨.development, ((3000 : ℕ) : ℚ),
    ⟨"localhost", "postgres", "postgres", ((5432 : ℕ) : ℚ), "postgres"⟩⟩

/-- One environment variable overridden with a present value. -/
def withVar (e : ProcessEnv) (k v : String) : ProcessEnv :=
  fun x => if x = k then some v else e x

/-- One environment variable removed. -/
def withoutVar (e : ProcessEnv) (k : String) : ProcessEnv :=
  fun x => if x = k then none else e x

/-- The example environment with a fractional database port. -/
def floatPortEnv : ProcessEnv := withVar exampleEnv "DATABASE_PORT" "1.5"

/-- The example environment with a non-numeric port and a missing database
password. -/
def twoBadEnv : ProcessEnv := withoutVar (withVar exampleEnv "PORT" "abc") "DATABASE_PASSWORD"

/-- The example environment without a database password. -/
def noPasswordEnv : ProcessEnv := withoutVar exampleEnv "DATABASE_PASSWORD"

/-- The example environment with an out-of-enumeration environment name. -/
def stagingEnv : ProcessEnv := withVar exampleEnv "NODE_ENV" "staging"

/-- The example environment with a negative port. -/
def minusOnePortEnv : ProcessEnv := withVar exampleEnv "PORT" "-1"

/-- The example environment with an empty database password. -/
def emptyPasswordEnv : ProcessEnv := withVar exampleEnv "DATABASE_PASSWORD" ""

/-- The example environment with an extra, unrelated variable set. -/
def unrelatedVarEnv : ProcessEnv := withVar exampleEnv "UNRELATED_VARIABLE" "x"

/-- The seven environment variables `configFactory` reads. -/
def relevantKeys : List String :=
  ["NODE_ENV", "PORT", "DATABASE_HOST", "DATABASE_PORT",
   "DATABASE_USERNAME", "DATABASE_PASSWORD", "DATABASE_NAME"]

/-- A string has length at least 1 exactly when it is non-empty. -/
theorem one_le_length_iff {s : String} : 1 ≤ s.length ↔ s ≠ "" := by
  cases s with
  | mk data => cases data <;> simp [String.length, String.ext_iff]

/-- Issues of a sequenced parse are the issues of both parts in order. -/
theorem issuesOf_zseq {α β : Type} (a : Except (List ZodIssue) α)
    (b : Except (List ZodIssue) β) :
    issuesOf (zseq a b) = issuesOf a ++ issuesOf b := by
  cases a <;> cases b <;> simp [zseq, issuesOf]

/-- Mapping the success value changes no issues. -/
theorem issuesOf_map {α β : Type} (f : α → β) (x : Except (List ZodIssue) α) :
    issuesOf (Except.map f x) = issuesOf x := by
  cases x <;> rfl

/-- A sequenced parse succeeds exactly when both parts do. -/
theorem zseq_ok_iff {α β : Type} {a : Except (List ZodIssue) α}
    {b : Except (List ZodIssue) β} {x : α × β} :
    zseq a b = .ok x ↔ a = .ok x.1 ∧ b = .ok x.2 := by
  cases a <;> cases b <;> cases x <;> simp [zseq, eq_comm, and_comm]

/-- A mapped parse succeeds exactly when the underlying one does. -/
theorem except_map_ok_iff {α β : Type} {f : α → β} {x : Except (List ZodIssue) α}
    {y : β} : Except.map f x = .ok y ↔ ∃ a, x = .ok a ∧ y = f a := by
  cases x <;> simp [Except.map, eq_comm]

/-- The issues of a run decompose into the per-field issues. -/
theorem issuesOf_configSchemaParse (e : ProcessEnv) :
    issuesOf (configSchemaParse (readRawInput e)) = allIssues e := by
  simp [configSchemaParse, databaseSchemaParse, readRawInput, issuesOf_map,
    issuesOf_zseq, allIssues, fieldIssues, List.append_assoc]

/-- The loader succeeds exactly when the schema parse of its raw input
does. -/
theorem configFactory_ok_iff {e : ProcessEnv} {c : Config} :
    configFactory e = .ok c ↔ configSchemaParse (readRawInput e) = .ok c := by
  unfold configFactory
  split <;> simp_all

/-- When any issue exists the loader throws the exception carrying exactly
the aggregated issue list. -/
theorem configFactory_error_of_issues (e : ProcessEnv) (h : allIssues e ≠ []) :
    configFactory e = .error ⟨allIssues e⟩ := by
  cases hp : configSchemaParse (readRawInput e) with
  | ok c => exact absurd (by rw [← issuesOf_configSchemaParse, hp]; rfl) h
  | error l =>
    have hl : l = allIssues e := by rw [← issuesOf_configSchemaParse, hp]; rfl
    unfold configFactory
    rw [hp, hl]

/-- Every issue of every field appears in the aggregated list. -/
theorem fieldIssues_mem_allIssues (e : ProcessEnv) (g : Field) {i : ZodIssue}
    (hi : i ∈ fieldIssues e g) : i ∈ allIssues e := by
  cases g <;> simp only [allIssues, List.mem_append] <;> tauto

/-- A failing field makes the aggregated issue list non-empty. -/
theorem allIssues_ne_nil (e : ProcessEnv) (f : Field)
    (hf : fieldIssues e f ≠ []) : allIssues e ≠ [] := by
  intro h0
  simp only [allIssues, List.append_eq_nil] at h0
  cases f <;> tauto

/-- A string parse succeeds exactly on a present non-empty string. -/
theorem stringMin1Parse_issues_nil_iff {path : List String} {s : String} :
    issuesOf (stringMin1Parse path (some s)) = [] ↔ s ≠ "" := by
  by_cases hl : 1 ≤ s.length
  · simp [stringMin1Parse, hl, issuesOf, one_le_length_iff.mp hl]
  · have hs : s = "" := by
      by_contra hne
      exact hl (one_le_length_iff.mpr hne)
    simp [stringMin1Parse, hl, issuesOf, hs]

/-- A successful string parse returns its non-empty input. -/
theorem stringMin1Parse_ok {path : List String} {v : Option String} {s : String}
    (h : stringMin1Parse path v = .ok s) : v = some s ∧ s ≠ "" := by
  cases v with
  | none => simp [stringMin1Parse] at h
  | some t =>
    by_cases hl : 1 ≤ t.length
    · simp [stringMin1Parse, hl] at h
      subst h
      exact ⟨rfl, one_le_length_iff.mp hl⟩
    · simp [stringMin1Parse, hl] at h

/-- A successful top-level port parse returns a positive integer. -/
theorem coercedPositiveIntParse_ok {path : List String} {v : Option String} {q : ℚ}
    (h : coercedPositiveIntParse path v = .ok q) : 0 < q ∧ q.den = 1 := by
  cases hjs : jsNumber v with
  | none => simp [coercedPositiveIntParse, hjs] at h
  | some r =>
    by_cases h1 : 0 < r
    · by_cases h2 : r.den = 1
      · simp [coercedPositiveIntParse, hjs, h1, h2] at h
        subst h
        exact ⟨h1, h2⟩
      · simp [coercedPositiveIntParse, hjs, h1, h2] at h
    · simp [coercedPositiveIntParse, hjs, h1] at h

/-- A successful database port parse returns a number at least 1. -/
theorem coercedMin1Parse_ok {path : List String} {v : Option String} {q : ℚ}
    (h : coercedMin1Parse path v = .ok q) : 1 ≤ q := by
  cases hjs : jsNumber v with
  | none => simp [coercedMin1Parse, hjs] at h
  | some r =>
    by_cases h1 : 1 ≤ r
    · simp [coercedMin1Parse, hjs, h1] at h
      subst h
      exact h1
    · simp [coercedMin1Parse, hjs, h1] at h

/-- The loader succeeds with the assembled configuration when each of the
seven field parses succeeds. -/
theorem configFactory_ok_of_parts (e : ProcessEnv) (ev : Environment) (p : ℚ)
    (hb db pw : String) (po : ℚ) (un : String)
    (h1 : environmentParse ["env"] (e "NODE_ENV") = .ok ev)
    (h2 : coercedPositiveIntParse ["port"] (e "PORT") = .ok p)
    (h3 : stringMin1Parse ["database", "host"] (e "DATABASE_HOST") = .ok hb)
    (h4 : stringMin1Parse ["database", "database"] (e "DATABASE_NAME") = .ok db)
    (h5 : stringMin1Parse ["database", "password"] (e "DATABASE_PASSWORD") = .ok pw)
    (h6 : coercedMin1Parse ["database", "port"] (e "DATABASE_PORT") = .ok po)
    (h7 : stringMin1Parse ["database", "username"] (e "DATABASE_USERNAME") = .ok un) :
    configFactory e = .ok ⟨ev, p, ⟨hb, db, pw, po, un⟩⟩ := by
  rw [configFactory_ok_iff]
  simp [configSchemaParse, databaseSchemaParse, readRawInput,
    h1, h2, h3, h4, h5, h6, h7, zseq, Except.map]

/-- C1: for every raw environment satisfying the schema constraints
(environment in the enumeration, both port strings denoting positive
integers, the four database strings non-empty), `configFactory` succeeds
and every field of the returned configuration is the coerced input
value. -/
theorem configFactory_ok_of_valid (e : ProcessEnv) (ev : Environment)
    (ps ds host user pass dbname : String) (p d : ℕ)
    (henv : e "NODE_ENV" = some (envToString ev))
    (hps : e "PORT" = some ps) (hpn : jsStringToNumber ps = some ((p : ℕ) : ℚ))
    (hppos : 0 < p)
    (hds : e "DATABASE_PORT" = some ds) (hdn : jsStringToNumber ds = some ((d : ℕ) : ℚ))
    (hdpos : 0 < d)
    (hhost : e "DATABASE_HOST" = some host) (hhost1 : host ≠ "")
    (huser : e "DATABASE_USERNAME" = some user) (huser1 : user ≠ "")
    (hpass : e "DATABASE_PASSWORD" = some pass) (hpass1 : pass ≠ "")
    (hname : e "DATABASE_NAME" = some dbname) (hname1 : dbname ≠ "") :
    configFactory e = .ok ⟨ev, (p : ℚ), ⟨host, dbname, pass, (d : ℚ), user⟩⟩ := by
  have h1 : environmentParse ["env"] (e "NODE_ENV") = .ok ev := by
    rw [henv]; cases ev <;> rfl
  have h2 : coercedPositiveIntParse ["port"] (e "PORT") = .ok ((p : ℕ) : ℚ) := by
    have hp0 : (0 : ℚ) < (p : ℚ) := by exact_mod_cast hppos
    rw [hps]
    simp [coercedPositiveIntParse, jsNumber, hpn, hp0, Rat.den_natCast]
  have h6 : coercedMin1Parse ["database", "port"] (e "DATABASE_PORT") = .ok ((d : ℕ) : ℚ) := by
    have hd1 : (1 : ℚ) ≤ (d : ℚ) := by exact_mod_cast hdpos
    rw [hds]
    simp [coercedMin1Parse, jsNumber, hdn, hd1]
  have h3 : stringMin1Parse ["database", "host"] (e "DATABASE_HOST") = .ok host := by
    rw [hhost]; simp [stringMin1Parse, one_le_length_iff.mpr hhost1]
  have h4 : stringMin1Parse ["database", "database"] (e "DATABASE_NAME") = .ok dbname := by
    rw [hname]; simp [stringMin1Parse, one_le_length_iff.mpr hname1]
  have h5 : stringMin1Parse ["database", "password"] (e "DATABASE_PASSWORD") = .ok pass := by
    rw [hpass]; simp [stringMin1Parse, one_le_length_iff.mpr hpass1]
  have h7 : stringMin1Parse ["database", "username"] (e "DATABASE_USERNAME") = .ok user := by
    rw [huser]; simp [stringMin1Parse, one_le_length_iff.mpr huser1]
  exact configFactory_ok_of_parts e ev _ host dbname pass _ user h1 h2 h3 h4 h5 h6 h7

/-- C1 witness: the worked example of the specification loads to port 3000
and database port 5432. -/
theorem configFactory_ok_of_valid_example :
    configFactory exampleEnv = .ok exampleConfig :=
  configFactory_ok_of_valid exampleEnv .development "3000" "5432" "localhost"
    "postgres" "postgres" "postgres" 3000 5432
    (by decide) (by decide) (by decide) (by decide) (by decide) (by decide)
    (by decide) (by decide) (by decide) (by decide) (by decide) (by decide)
    (by decide) (by decide) (by decide)

/-- C2 counterexample: the database port string `1.5` coerces to 3/2, which
is not a positive integer, yet its field validation succeeds and the whole
load succeeds, refuting the claim that both port fields accept exactly the
positive integers. -/
theorem database_port_accepts_noninteger :
    jsStringToNumber "1.5" = some ((3 : ℚ) / 2) ∧
    ¬ (0 < ((3 : ℚ) / 2) ∧ ((3 : ℚ) / 2).den = 1) ∧
    coercedMin1Parse ["database", "port"] (some "1.5") = .ok ((3 : ℚ) / 2) ∧
    (configFactory floatPortEnv).isOk = true := by
  have hv : (((1 : ℕ) : ℚ) + ((5 : ℕ) : ℚ) / 10 ^ (1 : ℕ)) = (3 : ℚ) / 2 := by norm_num
  have hq : jsStringToNumber "1.5" = some ((3 : ℚ) / 2) := by
    rw [show jsStringToNumber "1.5" =
      some (((1 : ℕ) : ℚ) + ((5 : ℕ) : ℚ) / 10 ^ (1 : ℕ)) from rfl, hv]
  have hdb : coercedMin1Parse ["database", "port"] (some "1.5") = .ok ((3 : ℚ) / 2) := by
    simp [coercedMin1Parse, jsNumber, hq]
    norm_num
  refine ⟨hq, ?_, hdb, ?_⟩
  · rintro ⟨-, hden⟩
    have : ((3 : ℚ) / 2).den = 2 := by norm_num
    omega
  · have h6 : coercedMin1Parse ["database", "port"] (floatPortEnv "DATABASE_PORT") =
        .ok ((3 : ℚ) / 2) := by
      rw [show floatPortEnv "DATABASE_PORT" = some "1.5" from rfl]
      exact hdb
    have hfull := configFactory_ok_of_parts floatPortEnv .development ((3000 : ℕ) : ℚ)
      "localhost" "postgres" "postgres" ((3 : ℚ) / 2) "postgres"
      rfl rfl rfl rfl rfl h6 rfl
    rw [hfull]
    rfl

/-- C2 amended: the top-level port accepts exactly the strings coercing to a
positive integer, while the database port accepts exactly the strings
coercing to a number at least 1 (integrality is not required there); for
`-1` or `abc` in either port variable, loading fails. -/
theorem port_fields_acceptance :
    (∀ v : String, (∃ q, coercedPositiveIntParse ["port"] (some v) = .ok q) ↔
      ∃ q : ℚ, jsStringToNumber v = some q ∧ 0 < q ∧ q.den = 1) ∧
    (∀ v : String, (∃ q, coercedMin1Parse ["database", "port"] (some v) = .ok q) ↔
      ∃ q : ℚ, jsStringToNumber v = some q ∧ 1 ≤ q) ∧
    (∀ e : ProcessEnv, e "PORT" = some "-1" ∨ e "PORT" = some "abc" →
      ∃ exc, configFactory e = .error exc) ∧
    (∀ e : ProcessEnv, e "DATABASE_PORT" = some "-1" ∨ e "DATABASE_PORT" = some "abc" →
      ∃ exc, configFactory e = .error exc) := by
  refine ⟨?_, ?_, ?_, ?_⟩
  · intro v
    cases hjs : jsStringToNumber v with
    | none => simp [coercedPositiveIntParse, jsNumber, hjs]
    | some r =>
      by_cases h1 : 0 < r
      · by_cases h2 : r.den = 1
        · simp [coercedPositiveIntParse, jsNumber, hjs, h1, h2]
        · simp [coercedPositiveIntParse, jsNumber, hjs, h1, h2]
      · simp [coercedPositiveIntParse, jsNumber, hjs, h1]
  · intro v
    cases hjs : jsStringToNumber v with
    | none => simp [coercedMin1Parse, jsNumber, hjs]
    | some r =>
      by_cases h1 : 1 ≤ r
      · simp [coercedMin1Parse, jsNumber, hjs, h1]
      · simp [coercedMin1Parse, jsNumber, hjs, h1]
  · intro e h
    have hf : fieldIssues e .port ≠ [] := by
      rcases h with h | h <;> simp only [fieldIssues] <;> rw [h] <;> decide
    exact ⟨⟨allIssues e⟩, configFactory_error_of_issues e (allIssues_ne_nil e .port hf)⟩
  · intro e h
    have hf : fieldIssues e .dbPort ≠ [] := by
      rcases h with h | h <;> simp only [fieldIssues] <;> rw [h] <;> decide
    exact ⟨⟨allIssues e⟩, configFactory_error_of_issues e (allIssues_ne_nil e .dbPort hf)⟩

/-- C2 witness: loading with a top-level port of `-1` fails. -/
theorem port_fields_acceptance_witness :
    ∃ exc, configFactory minusOnePortEnv = .error exc :=
  port_fields_acceptance.2.2.1 minusOnePortEnv (Or.inl (by decide))

/-- C3: whenever any field of the raw environment fails validation, the
loader throws a `ConfigException` whose aggregate carries every issue of
every failing field, not only the first. -/
theorem configFactory_error_aggregates (e : ProcessEnv) (f : Field)
    (hf : fieldIssues e f ≠ []) :
    ∃ exc : ConfigException, configFactory e = .error exc ∧
      ∀ g : Field, ∀ i ∈ fieldIssues e g, i ∈ exc.issues :=
  ⟨⟨allIssues e⟩, configFactory_error_of_issues e (allIssues_ne_nil e f hf),
    fun g _ hi => fieldIssues_mem_allIssues e g hi⟩

/-- C3 witness: with a non-numeric port and a missing database password the
thrown exception aggregates the issues of all failing fields. -/
theorem configFactory_error_aggregates_witness :
    ∃ exc : ConfigException, configFactory twoBadEnv = .error exc ∧
      ∀ g : Field, ∀ i ∈ fieldIssues twoBadEnv g, i ∈ exc.issues :=
  configFactory_error_aggregates twoBadEnv .port (by decide)

/-- C4: the environment field is accepted exactly on the two enumerated
strings, and any other value makes loading fail. -/
theorem environment_enum_acceptance (e : ProcessEnv) (s : String)
    (hs : e "NODE_ENV" = some s) :
    (fieldIssues e .env = [] ↔ s = "development" ∨ s = "production") ∧
    (s ≠ "development" → s ≠ "production" → ∃ exc, configFactory e = .error exc) := by
  have hfi : fieldIssues e .env = issuesOf (environmentParse ["env"] (some s)) := by
    simp [fieldIssues, hs]
  constructor
  · rw [hfi]
    by_cases h1 : s = "development"
    · simp [environmentParse, h1, issuesOf]
    · by_cases h2 : s = "production"
      · simp [environmentParse, h1, h2, issuesOf]
      · simp [environmentParse, h1, h2, issuesOf]
  · intro h1 h2
    have hf : fieldIssues e .env ≠ [] := by
      rw [hfi]
      simp [environmentParse, h1, h2, issuesOf]
    exact ⟨⟨allIssues e⟩, configFactory_error_of_issues e (allIssues_ne_nil e .env hf)⟩

/-- C4 witness: loading with environment `staging` fails. -/
theorem environment_enum_acceptance_witness :
    ∃ exc, configFactory stagingEnv = .error exc :=
  (environment_enum_acceptance stagingEnv "staging" (by decide)).2
    (by decide) (by decide)

/-- C5: a missing required environment variable makes the loader throw, and
the aggregate carries an issue whose path is that field. -/
theorem configFactory_missing_key (e : ProcessEnv) (f : Field)
    (h : e f.envVar = none) :
    ∃ exc : ConfigException, configFactory e = .error exc ∧
      ∃ i ∈ exc.issues, i.path = f.path := by
  have hfi : fieldIssues e f ≠ [] ∧ ∃ i ∈ fieldIssues e f, i.path = f.path := by
    cases f <;>
      simp only [Field.envVar] at h <;>
      simp [fieldIssues, Field.path, h, environmentParse, coercedPositiveIntParse,
        coercedMin1Parse, stringMin1Parse, jsNumber, issuesOf]
  obtain ⟨i, hi, hip⟩ := hfi.2
  exact ⟨⟨allIssues e⟩, configFactory_error_of_issues e (allIssues_ne_nil e f hfi.1),
    i, fieldIssues_mem_allIssues e f hi, hip⟩

/-- C5 witness: an environment without a database password fails with an
issue at the password path. -/
theorem configFactory_missing_key_witness :
    ∃ exc : ConfigException, configFactory noPasswordEnv = .error exc ∧
      ∃ i ∈ exc.issues, i.path = ["database", "password"] :=
  configFactory_missing_key noPasswordEnv .dbPassword (by decide)

/-- C6: loading is all-or-nothing: a run either succeeds with a
configuration satisfying every schema constraint or throws; no field is ever
silently defaulted. -/
theorem configFactory_all_or_nothing (e : ProcessEnv) :
    (∃ c, configFactory e = .ok c ∧ validConfig c) ∨
    ∃ exc, configFactory e = .error exc := by
  cases hfe : configFactory e with
  | error exc => exact Or.inr ⟨exc, rfl⟩
  | ok c =>
    left
    refine ⟨c, rfl, ?_⟩
    have hp := configFactory_ok_iff.mp hfe
    rw [configSchemaParse] at hp
    obtain ⟨x, hx, hcx⟩ := except_map_ok_iff.mp hp
    obtain ⟨hab, hd⟩ := zseq_ok_iff.mp hx
    obtain ⟨-, hb⟩ := zseq_ok_iff.mp hab
    rw [databaseSchemaParse] at hd
    obtain ⟨y, hy, hdy⟩ := except_map_ok_iff.mp hd
    obtain ⟨h1234, h5⟩ := zseq_ok_iff.mp hy
    obtain ⟨h123, h4⟩ := zseq_ok_iff.mp h1234
    obtain ⟨h12, h3⟩ := zseq_ok_iff.mp h123
    obtain ⟨hdh, hdd⟩ := zseq_ok_iff.mp h12
    subst hcx
    rw [validConfig]
    rw [hdy]
    exact ⟨(coercedPositiveIntParse_ok hb).1, (coercedPositiveIntParse_ok hb).2,
      (stringMin1Parse_ok hdh).2, (stringMin1Parse_ok hdd).2,
      (stringMin1Parse_ok h3).2, coercedMin1Parse_ok h4,
      (stringMin1Parse_ok h5).2⟩

/-- C7: loading is deterministic: two successful runs on the same
environment return structurally equal configurations. -/
theorem configFactory_deterministic (e : ProcessEnv) (c₁ c₂ : Config)
    (h₁ : configFactory e = .ok c₁) (h₂ : configFactory e = .ok c₂) : c₁ = c₂ := by
  rw [h₁] at h₂
  exact Except.ok.inj h₂

/-- C7 witness: two runs on the example environment agree. -/
theorem configFactory_deterministic_witness : exampleConfig = exampleConfig :=
  configFactory_deterministic exampleEnv exampleConfig exampleConfig rfl rfl

/-- C9: after a successful load, the accessor applied to the service built
at startup returns exactly the value stored for the requested key in the
loaded configuration, at the declared type, with no further validation or
coercion. -/
theorem configService_get_returns_field (e : ProcessEnv) (n : NestConfigService)
    (c : Config) (hn : nestServiceOfLoad e = .ok n) (hc : configFactory e = .ok c)
    (k : ConfigKey) : ConfigService.get ⟨n⟩ k = c.getField k := by
  have hnc : n = ⟨c⟩ := by
    rw [nestServiceOfLoad, hc] at hn
    exact (Except.ok.inj hn).symm
  subst hnc
  rfl

/-- C9 witness: the accessor returns the stored port of the example
configuration. -/
theorem configService_get_returns_field_witness :
    ConfigService.get ⟨⟨exampleConfig⟩⟩ ConfigKey.port = exampleConfig.getField ConfigKey.port :=
  configService_get_returns_field exampleEnv ⟨exampleConfig⟩ exampleConfig rfl rfl
    ConfigKey.port

/-- C8: each of the four database string fields is accepted exactly when it
is a non-empty string, and an empty value makes loading fail with an issue
at that field. -/
theorem string_fields_nonempty (e : ProcessEnv) (f : Field) (hf : f.isString = true)
    (s : String) (hs : e f.envVar = some s) :
    (fieldIssues e f = [] ↔ s ≠ "") ∧
    (s = "" → ∃ exc, configFactory e = .error exc ∧ ∃ i ∈ exc.issues, i.path = f.path) := by
  have hfi : fieldIssues e f = issuesOf (stringMin1Parse f.path (some s)) := by
    cases f with
    | env => exact absurd hf (by decide)
    | port => exact absurd hf (by decide)
    | dbPort => exact absurd hf (by decide)
    | dbHost =>
      simp only [Field.envVar] at hs
      simp [fieldIssues, Field.path, hs]
    | dbDatabase =>
      simp only [Field.envVar] at hs
      simp [fieldIssues, Field.path, hs]
    | dbPassword =>
      simp only [Field.envVar] at hs
      simp [fieldIssues, Field.path, hs]
    | dbUsername =>
      simp only [Field.envVar] at hs
      simp [fieldIssues, Field.path, hs]
  constructor
  · rw [hfi, stringMin1Parse_issues_nil_iff]
  · intro hempty
    subst hempty
    have hne : fieldIssues e f ≠ [] := by
      rw [hfi]
      simp [stringMin1Parse, issuesOf]
    have hmem : ∃ i ∈ fieldIssues e f, i.path = f.path := by
      rw [hfi]
      simp [stringMin1Parse, issuesOf]
    obtain ⟨i, hi, hip⟩ := hmem
    exact ⟨⟨allIssues e⟩, configFactory_error_of_issues e (allIssues_ne_nil e f hne),
      i, fieldIssues_mem_allIssues e f hi, hip⟩

/-- C8 witness: an empty database password makes loading fail with an issue
at the password path. -/
theorem string_fields_nonempty_witness :
    ∃ exc, configFactory emptyPasswordEnv = .error exc ∧
      ∃ i ∈ exc.issues, i.path = ["database", "password"] :=
  (string_fields_nonempty emptyPasswordEnv .dbPassword rfl "" (by decide)).2 rfl

/-- C10: the outcome of loading depends only on the seven recognized
environment variables: two environments agreeing on them produce identical
outcomes. -/
theorem configFactory_noninterference (e₁ e₂ : ProcessEnv)
    (h : ∀ k ∈ relevantKeys, e₁ k = e₂ k) : configFactory e₁ = configFactory e₂ := by
  have hr : readRawInput e₁ = readRawInput e₂ := by
    simp only [readRawInput, RawConfigInput.mk.injEq, RawDatabase.mk.injEq]
    refine ⟨?_, ?_, ?_, ?_, ?_, ?_, ?_⟩ <;> apply h <;> simp [relevantKeys]
  unfold configFactory
  rw [hr]

/-- C10 witness: setting an unrelated variable leaves the outcome
unchanged. -/
theorem configFactory_noninterference_witness :
    configFactory exampleEnv = configFactory unrelatedVarEnv :=
  configFactory_noninterference exampleEnv unrelatedVarEnv (by decide)

end NestZodConfig
